import Mathlib

/-!
A verification development for the logsearchapi storage-and-query engine
(`server/db.go`): the query builder inside `Search`, the transactional
ingestion path `InsertEvent`, and the CSV result exporter.

Query text is embedded as a list of tokens: literal SQL text fragments and
positional placeholders (`$n`). This mirrors the Go code's string building
(`fmt.Sprintf("event_time >= $%d", dollarStart)`) while keeping the
placeholder structure visible: a token `QTok.dollar n` stands for the text
`$n`, and every other piece of the query is a `QTok.str` literal.
-/

set_option autoImplicit false

namespace LogSearch

/-- One token of a query text: a literal string fragment, or a positional
placeholder `$n`. -/
inductive QTok where
  | str : String → QTok
  | dollar : Nat → QTok
deriving DecidableEq, Repr

/-- The positional placeholders occurring in a query text, in textual order. -/
def dollars : List QTok → List Nat
  | [] => []
  | QTok.str _ :: ts => dollars ts
  | QTok.dollar n :: ts => n :: dollars ts

/-- A positional SQL argument as passed to `QueryContext`: the Go code passes
formatted-timestamp strings and filter values as strings, and paging
offset/limit as integers. -/
inductive SQLArg where
  | str : String → SQLArg
  | int : Int → SQLArg
deriving DecidableEq, Repr

/-- Modelled from the spec: Go's `time.Time.Format(time.RFC3339Nano)`
(standard-library timestamp rendering; the spec places timestamp semantics
with the external engine/runtime). Modelled as an injective textual rendering
of the instant, measured in nanoseconds since the epoch. -/
def rfc3339Nano (t : Int) : String :=
  "RFC3339NANO(" ++ toString t ++ ")"

/-- A database table: its name together with the column names of its
`CREATE TABLE` statement (`db.go` lines 50–74). -/
structure Table where
  name : String
  columns : List String
deriving DecidableEq, Repr

/-- `audit_log_events` (`db.go` lines 50–56): the raw-log table, partitioned by
range on `event_time`. -/
def auditLogEventsTable : Table :=
  { name := "audit_log_events", columns := ["event_time", "log"] }

/-- `request_info` (`db.go` lines 57–74): the request-info table, partitioned by
range on `time`. -/
def requestInfoTable : Table :=
  { name := "request_info",
    columns := ["time", "api_name", "access_key", "bucket", "object",
                "time_to_response_ns", "remote_host", "request_id",
                "user_agent", "response_status", "response_status_code",
                "request_content_length", "response_content_length"] }

/-- The query selector of a search request (`s.Query`): the raw-log query, the
request-info query, or any other value (rejected by `Search`'s default
branch). -/
inductive QType where
  | rawQ
  | reqInfoQ
  | invalid : String → QType
deriving DecidableEq, Repr

/-- One caller filter parameter: an allow-listed column name and the value to
match. -/
structure FParam where
  column : String
  value : String
deriving DecidableEq, Repr

/-- The search request consumed by `Search` (fields of `SearchQuery` used in
`db.go`). Timestamps are nanoseconds since the epoch; `lastDuration` is in
nanoseconds (Go `time.Duration`). -/
structure SearchQuery where
  query : QType
  timeStart : Option Int
  timeEnd : Option Int
  lastDuration : Option Int
  fparams : List FParam
  timeAscending : Bool
  pageNumber : Int
  pageSize : Int
  exportFormat : String
deriving DecidableEq, Repr

/-- Round a rational to the nearest integer, ties to even (the IEEE-754
default rounding mode used by Go `float64` arithmetic). -/
def roundHalfEven (x : ℚ) : ℤ :=
  let f := ⌊x⌋
  if x - f < 1/2 then f
  else if 1/2 < x - f then f + 1
  else if f % 2 = 0 then f else f + 1

/-- The binade exponent of a positive rational: the unique `e` with
`2^e ≤ q < 2^(e+1)`, computed from the bit lengths of numerator and
denominator. -/
def binadeExp (q : ℚ) : ℤ :=
  let e0 : ℤ := (Nat.log2 q.num.natAbs : ℤ) - (Nat.log2 q.den : ℤ)
  if (2 : ℚ) ^ e0 ≤ q then e0 else e0 - 1

/-- Rounding of a positive rational to 53 significant bits: the nearest
multiple of `2^(e-52)` (ties to even), `e` its binade exponent. -/
def rndPos (q : ℚ) : ℚ :=
  (roundHalfEven (q / (2 : ℚ) ^ (binadeExp q - 52)) : ℚ) *
    (2 : ℚ) ^ (binadeExp q - 52)

/-- Modelled from the source's runtime: exact value of rounding a rational to
the nearest IEEE-754 binary64 number (round to nearest, ties to even), in
the normal range — the only range `time.Duration` computations reach (no
overflow or subnormals arise there). -/
def rnd (q : ℚ) : ℚ :=
  if q = 0 then 0 else if q < 0 then -rndPos (-q) else rndPos q

/-- Truncation of a rational toward zero (Go's in-range `float64`-to-`int64`
conversion). -/
def ratTrunc (q : ℚ) : ℤ :=
  if q < 0 then -⌊-q⌋ else ⌊q⌋

/-- Go's `time.Duration.Seconds` (stdlib):
`float64(d / 1e9) + float64(d % 1e9) / 1e9`, with `/` and `%` Go's truncated
integer division and remainder, and every `float64` conversion and operation
rounded exactly as IEEE-754 binary64. -/
def goSeconds (d : Int) : ℚ :=
  rnd (rnd ((d.tdiv 1000000000 : Int) : ℚ) +
    rnd (rnd ((d.tmod 1000000000 : Int) : ℚ) / rnd (1000000000 : ℚ)))

/-- `int64(s.LastDuration.Seconds())` (`db.go` lines 370, 487): the `float64`
seconds value of the duration, converted to `int64` (truncation toward
zero). The `float64` computation is modelled exactly; its rounding can
exceed plain whole-second truncation (see the C10 counterexample). -/
def goDurationSeconds (ns : Int) : Int :=
  ratTrunc (goSeconds ns)

/-- Accumulator of the WHERE-clause construction inside `Search`: the clause
list, the positional argument list, and the next free placeholder index
(`dollarStart`). -/
structure QBuild where
  whereClauses : List (List QTok)
  sqlArgs : List SQLArg
  dollarStart : Nat
deriving DecidableEq, Repr

/-- Modelled from the spec: `generateFilterClauses` lives in a repository file
not under src/. Per the spec (§4.4 step 3): one predicate per caller filter
parameter, each bound positionally, over allow-listed column names; it
receives and returns the running `dollarStart` index. -/
def generateFilterClauses : List FParam → Nat → List (List QTok) × List SQLArg × Nat
  | [], n => ([], [], n)
  | p :: ps, n =>
    let rest := generateFilterClauses ps (n + 1)
    ([QTok.str (p.column ++ " = "), QTok.dollar n] :: rest.1,
     SQLArg.str p.value :: rest.2.1,
     rest.2.2)

/-- Appending the filter clauses to the accumulated WHERE build (`db.go`
lines 375–378 and 492–495): the remaining dollar params are used for the
filter clauses. -/
def addFilterClauses (b : QBuild) (ps : List FParam) : QBuild :=
  let f := generateFilterClauses ps b.dollarStart
  ⟨b.whereClauses ++ f.1, b.sqlArgs ++ f.2.1, f.2.2⟩

/-- The time-bound WHERE clauses of the `rawQ` branch of `Search` (`db.go`
lines 351–373): absolute start, absolute end, then the relative
last-duration clause. -/
def rawTimeWhere (s : SearchQuery) : QBuild :=
  let b0 : QBuild := ⟨[], [], 1⟩
  let b1 : QBuild :=
    match s.timeStart with
    | some t =>
      ⟨b0.whereClauses ++ [[QTok.str "event_time >= ", QTok.dollar b0.dollarStart]],
       b0.sqlArgs ++ [SQLArg.str (rfc3339Nano t)], b0.dollarStart + 1⟩
    | none => b0
  let b2 : QBuild :=
    match s.timeEnd with
    | some t =>
      ⟨b1.whereClauses ++ [[QTok.str "event_time < ", QTok.dollar b1.dollarStart]],
       b1.sqlArgs ++ [SQLArg.str (rfc3339Nano t)], b1.dollarStart + 1⟩
    | none => b1
  let b3 : QBuild :=
    match s.lastDuration with
    | some d =>
      ⟨b2.whereClauses ++
         [[QTok.str ("event_time >= CURRENT_TIMESTAMP - '" ++
            toString (goDurationSeconds d) ++ " seconds'::interval")]],
       b2.sqlArgs, b2.dollarStart⟩
    | none => b2
  b3

/-- The WHERE-clause list, argument list and final `dollarStart` built by the
`rawQ` branch of `Search` (`db.go` lines 351–378). -/
def rawWhereArgs (s : SearchQuery) : QBuild :=
  addFilterClauses (rawTimeWhere s) s.fparams

/-- The time-bound WHERE clauses of the `reqInfoQ` branch of `Search`
(`db.go` lines 470–490). Note: the absolute bounds use column `time`, but
the last-duration clause (line 488) is built on `event_time`, transliterated
as in the source. -/
def reqInfoTimeWhere (s : SearchQuery) : QBuild :=
  let b0 : QBuild := ⟨[], [], 1⟩
  let b1 : QBuild :=
    match s.timeStart with
    | some t =>
      ⟨b0.whereClauses ++ [[QTok.str "time >= ", QTok.dollar b0.dollarStart]],
       b0.sqlArgs ++ [SQLArg.str (rfc3339Nano t)], b0.dollarStart + 1⟩
    | none => b0
  let b2 : QBuild :=
    match s.timeEnd with
    | some t =>
      ⟨b1.whereClauses ++ [[QTok.str "time < ", QTok.dollar b1.dollarStart]],
       b1.sqlArgs ++ [SQLArg.str (rfc3339Nano t)], b1.dollarStart + 1⟩
    | none => b1
  let b3 : QBuild :=
    match s.lastDuration with
    | some d =>
      ⟨b2.whereClauses ++
         [[QTok.str ("event_time >= CURRENT_TIMESTAMP - '" ++
            toString (goDurationSeconds d) ++ " seconds'::interval")]],
       b2.sqlArgs, b2.dollarStart⟩
    | none => b2
  b3

/-- The WHERE-clause list, argument list and final `dollarStart` built by the
`reqInfoQ` branch of `Search` (`db.go` lines 467–495). -/
def reqInfoWhereArgs (s : SearchQuery) : QBuild :=
  addFilterClauses (reqInfoTimeWhere s) s.fparams

/-- `strings.Join(clauses, sep)` at the token level. -/
def qjoin (sep : String) : List (List QTok) → List QTok
  | [] => []
  | [c] => c
  | c :: c2 :: cs => c ++ [QTok.str sep] ++ qjoin sep (c2 :: cs)

/-- The rendered WHERE clause (`db.go` lines 380–383): the clauses joined with
`" AND "` and prefixed by `WHERE`, or nothing at all when no clause exists. -/
def whereTokens (whereClauses : List (List QTok)) : List QTok :=
  match whereClauses with
  | [] => []
  | c :: cs => QTok.str "WHERE " :: qjoin " AND " (c :: cs)

/-- The paging clause and its two positional arguments (`db.go` lines 385–389,
502–506): present exactly when the export format is the empty string. -/
def pagingFor (s : SearchQuery) (dollarStart : Nat) : List QTok × List SQLArg :=
  if s.exportFormat = "" then
    ([QTok.str "OFFSET ", QTok.dollar dollarStart,
      QTok.str " LIMIT ", QTok.dollar (dollarStart + 1)],
     [SQLArg.int (s.pageNumber * s.pageSize), SQLArg.int s.pageSize])
  else ([], [])

/-- `ORDER BY` direction (`db.go` lines 344–347). -/
def timeOrder (s : SearchQuery) : String :=
  if s.timeAscending then "ASC" else "DESC"

/-- The `logEventSelect` template (`db.go` lines 318–323) instantiated with the
table name, WHERE clause, sort order and paging clause. -/
def logEventSelect (tableName : String) (whereC : List QTok) (order : String)
    (paging : List QTok) : List QTok :=
  [QTok.str "SELECT event_time, log FROM ", QTok.str tableName, QTok.str " "] ++
    whereC ++ [QTok.str " ORDER BY event_time ", QTok.str order, QTok.str " "] ++
    paging ++ [QTok.str ";"]

/-- The `reqInfoSelect` template (`db.go` lines 325–341) instantiated with the
table name, WHERE clause, sort order and paging clause. -/
def reqInfoSelect (tableName : String) (whereC : List QTok) (order : String)
    (paging : List QTok) : List QTok :=
  [QTok.str ("SELECT time, api_name, access_key, bucket, object, " ++
      "time_to_response_ns, remote_host, request_id, user_agent, " ++
      "response_status, response_status_code, request_content_length, " ++
      "response_content_length FROM "),
   QTok.str tableName, QTok.str " "] ++
    whereC ++ [QTok.str " ORDER BY time ", QTok.str order, QTok.str " "] ++
    paging ++ [QTok.str ";"]

/-- Query text and positional arguments produced by the `rawQ` branch of
`Search` (`db.go` lines 350–392). -/
def rawQueryAndArgs (s : SearchQuery) : List QTok × List SQLArg :=
  let b := rawWhereArgs s
  let p := pagingFor s b.dollarStart
  (logEventSelect auditLogEventsTable.name (whereTokens b.whereClauses)
     (timeOrder s) p.1,
   b.sqlArgs ++ p.2)

/-- Query text and positional arguments produced by the `reqInfoQ` branch of
`Search` (`db.go` lines 466–508). -/
def reqInfoQueryAndArgs (s : SearchQuery) : List QTok × List SQLArg :=
  let b := reqInfoWhereArgs s
  let p := pagingFor s b.dollarStart
  (reqInfoSelect requestInfoTable.name (whereTokens b.whereClauses)
     (timeOrder s) p.1,
   b.sqlArgs ++ p.2)

/-- The query `Search` executes, per query selector (`db.go` lines 349, 466,
577–578): `none` for the default branch, which returns an error without
building a query. -/
def searchQueryAndArgs (s : SearchQuery) : Option (List QTok × List SQLArg) :=
  match s.query with
  | QType.rawQ => some (rawQueryAndArgs s)
  | QType.reqInfoQ => some (reqInfoQueryAndArgs s)
  | QType.invalid _ => none

/-! ## Request validation (spec-modelled) -/

/-- Errors produced by the search path: `InvalidRequest` from validation, and
the `Invalid query name` error of `Search`'s default branch. -/
inductive SearchErr where
  | invalidRequest : String → SearchErr
  | other : String → SearchErr
deriving DecidableEq, Repr

/-- Modelled from the spec: validation of the search request happens before
`Search` in a repository file not under src/ (the code comments at `db.go`
lines 368–369 refer to it). Per the spec (§4.4 edge cases): a page size of
zero in paginated mode is rejected with `InvalidRequest`, and supplying a
relative duration together with an absolute bound is rejected with
`InvalidRequest`. -/
def validateSearchQuery (s : SearchQuery) : Except SearchErr Unit :=
  if s.exportFormat = "" ∧ s.pageSize = 0 then
    Except.error (SearchErr.invalidRequest "page size must be nonzero")
  else if (s.timeStart.isSome ∨ s.timeEnd.isSome) ∧ s.lastDuration.isSome then
    Except.error (SearchErr.invalidRequest "cannot combine time range with last duration")
  else Except.ok ()

/-- The validated search pipeline: validation first, then the query `Search`
would build and execute; no query is produced when validation fails. -/
def searchPipeline (s : SearchQuery) : Except SearchErr (List QTok × List SQLArg) :=
  match validateSearchQuery s with
  | Except.error e => Except.error e
  | Except.ok () =>
    match searchQueryAndArgs s with
    | some qa => Except.ok qa
    | none => Except.error (SearchErr.other "Invalid query name")

/-! ## Ingestion: `InsertEvent` (`db.go` lines 169–256) -/

/-- The `API` sub-struct of an audit event, as consumed by `InsertEvent`. -/
structure API where
  name : String
  accessKey : String
  bucket : String
  object : String
  timeToResponse : Int
  status : String
  statusCode : Int
deriving DecidableEq, Repr

/-- An audit event as consumed by `InsertEvent`. The content-length getters
(`getRequestContentLength`, `getResponseContentLength`) are defined in a
repository file not under src/; each is modelled by its returned pair
`(value, error)`: the second component is `some msg` exactly when the Go
getter returns a non-nil error. -/
structure Event where
  time : Int
  api : API
  remoteHost : String
  requestID : String
  userAgent : String
  getRequestContentLength : Nat × Option String
  getResponseContentLength : Nat × Option String
deriving DecidableEq, Repr

/-- The nullable pointer stored for a content length (`db.go` lines 226–235):
a pointer to the getter's value when the getter returned no error, and the
nil pointer (SQL NULL) otherwise — never zero-for-unknown. -/
def contentLengthPtr (res : Nat × Option String) : Option Nat :=
  match res.2 with
  | none => some res.1
  | some _ => none

/-- A row of `audit_log_events`: timestamp plus serialized payload. -/
structure RawLogRow where
  eventTime : Int
  log : String
deriving DecidableEq, Repr

/-- A row of `request_info` (also the scan target `ReqInfoRow` of `db.go`
lines 270–284). -/
structure ReqInfoRow where
  time : Int
  apiName : String
  accessKey : String
  bucket : String
  object : String
  timeToResponseNs : Int
  remoteHost : String
  requestID : String
  userAgent : String
  responseStatus : String
  responseStatusCode : Int
  requestContentLength : Option Nat
  responseContentLength : Option Nat
deriving DecidableEq, Repr

/-- The `request_info` row `InsertEvent` builds from an event (`db.go` lines
237–250). -/
def reqInfoRowOf (e : Event) : ReqInfoRow :=
  { time := e.time
    apiName := e.api.name
    accessKey := e.api.accessKey
    bucket := e.api.bucket
    object := e.api.object
    timeToResponseNs := e.api.timeToResponse
    remoteHost := e.remoteHost
    requestID := e.requestID
    userAgent := e.userAgent
    responseStatus := e.api.status
    responseStatusCode := e.api.statusCode
    requestContentLength := contentLengthPtr e.getRequestContentLength
    responseContentLength := contentLengthPtr e.getResponseContentLength }

/-- The visible database state: the rows of the two tables, in insertion
order. -/
structure DBState where
  auditLogEvents : List RawLogRow
  requestInfo : List ReqInfoRow
deriving DecidableEq, Repr

/-- One database operation `InsertEvent` issues, recorded in program order. -/
inductive DBOp where
  | beginTx
  | execInsertRaw : RawLogRow → DBOp
  | execInsertReq : ReqInfoRow → DBOp
  | commit
  | rollback
deriving DecidableEq, Repr

/-- Which of `InsertEvent`'s fallible external steps succeed: `BeginTx`,
`json.Marshal`, the two `ExecContext` calls and `Commit`. Quantifying over
this oracle covers every failure interleaving of one call. -/
structure TxOutcome where
  beginOk : Bool
  marshalOk : Bool
  insertRawOk : Bool
  insertReqOk : Bool
  commitOk : Bool
deriving DecidableEq, Repr

/-- Result of `InsertEvent`: whether it returned a nil error, the resulting
visible database state, and the trace of database operations issued. -/
structure InsertResult where
  ok : Bool
  state : DBState
  trace : List DBOp
deriving DecidableEq, Repr

/-- A whitespace character (space, tab, newline, carriage return). -/
def isWhitespaceChar (c : Char) : Bool :=
  c = ' ' || c = '\t' || c = '\n' || c = '\r'

/-- Modelled from the spec: `isEmptyEvent` is defined in a repository file not
under src/; per the spec, an empty or whitespace-only payload is the defined
no-op case. -/
def isEmptyEvent (eventBytes : String) : Bool :=
  eventBytes.toList.all isWhitespaceChar

/-- `InsertEvent` (`db.go` lines 169–256). The JSON parser `parseJSONEvent`
and serializer `json.Marshal` live outside src/ and are taken as parameters;
`o` fixes which external calls succeed. Writes inside the open transaction
are buffered and become visible only at a successful `Commit`; the deferred
`tx.Rollback()` (a no-op after a successful commit) discards them otherwise. -/
def InsertEvent (parse : String → Except String Event) (marshal : Event → String)
    (o : TxOutcome) (eventBytes : String) (st : DBState) : InsertResult :=
  if isEmptyEvent eventBytes then
    { ok := true, state := st, trace := [] }
  else
    match parse eventBytes with
    | Except.error _ => { ok := false, state := st, trace := [] }
    | Except.ok event =>
      if !o.beginOk then
        { ok := false, state := st, trace := [] }
      else if !o.marshalOk then
        { ok := false, state := st, trace := [DBOp.beginTx, DBOp.rollback] }
      else
        let rawRow : RawLogRow := { eventTime := event.time, log := marshal event }
        if !o.insertRawOk then
          { ok := false, state := st,
            trace := [DBOp.beginTx, DBOp.execInsertRaw rawRow, DBOp.rollback] }
        else
          let reqRow := reqInfoRowOf event
          if !o.insertReqOk then
            { ok := false, state := st,
              trace := [DBOp.beginTx, DBOp.execInsertRaw rawRow,
                        DBOp.execInsertReq reqRow, DBOp.rollback] }
          else if !o.commitOk then
            { ok := false, state := st,
              trace := [DBOp.beginTx, DBOp.execInsertRaw rawRow,
                        DBOp.execInsertReq reqRow, DBOp.commit, DBOp.rollback] }
          else
            { ok := true,
              state := { auditLogEvents := st.auditLogEvents ++ [rawRow],
                         requestInfo := st.requestInfo ++ [reqRow] },
              trace := [DBOp.beginTx, DBOp.execInsertRaw rawRow,
                        DBOp.execInsertReq reqRow, DBOp.commit] }

/-! ## CSV export (`db.go` lines 286–291, 528–564) -/

/-- `iPtrToStr` (`db.go` lines 286–291): a nullable integer renders as the
empty string when absent, and as its decimal value otherwise. -/
def iPtrToStr : Option Nat → String
  | none => ""
  | some i => toString i

/-- The fixed CSV header for request-info results (`db.go` lines 300–314). -/
def reqInfoCSVHeader : List String :=
  ["time", "api_name", "access_key", "bucket", "object", "time_to_response_ns",
   "remote_host", "request_id", "user_agent", "response_status",
   "response_status_code", "request_content_length", "response_content_length"]

/-- The CSV record built for one request-info row (`db.go` lines 542–556). -/
def reqInfoCSVRecord (i : ReqInfoRow) : List String :=
  [rfc3339Nano i.time,
   i.apiName,
   i.accessKey,
   i.bucket,
   i.object,
   toString i.timeToResponseNs,
   i.remoteHost,
   i.requestID,
   i.userAgent,
   i.responseStatus,
   toString i.responseStatusCode,
   iPtrToStr i.requestContentLength,
   iPtrToStr i.responseContentLength]

/-- One operation on the CSV writer. -/
inductive CSVOp where
  | write : List String → CSVOp
  | flush
  | checkError
deriving DecidableEq, Repr

/-- The row-writing loop of the csv branch (`db.go` lines 537–560): `wf k`
says whether the k-th `cw.Write` call succeeds; a failing write aborts the
loop with an error return. -/
def writeCSVRows (wf : Nat → Bool) : Nat → List ReqInfoRow → Bool × List CSVOp
  | _, [] => (true, [])
  | k, r :: rs =>
    if wf k then
      let rest := writeCSVRows wf (k + 1) rs
      (rest.1, CSVOp.write (reqInfoCSVRecord r) :: rest.2)
    else (false, [])

/-- The csv branch of `Search` for request-info results (`db.go` lines
528–564): header write first (call index 0), then one record per cursor row,
then `Flush` and the final `Error` check; any failing write aborts with an
error before flushing. Returns whether the branch succeeded and the trace of
writer operations performed. -/
def reqInfoCSVExport (wf : Nat → Bool) (rows : List ReqInfoRow) : Bool × List CSVOp :=
  if wf 0 then
    let rest := writeCSVRows wf 1 rows
    if rest.1 then
      (true, CSVOp.write reqInfoCSVHeader :: rest.2 ++ [CSVOp.flush, CSVOp.checkError])
    else
      (false, CSVOp.write reqInfoCSVHeader :: rest.2)
  else (false, [])

/-! ## Derived notions and sample inputs -/

/-- The placeholders of a clause list, in clause order. -/
def clausesDollars (cs : List (List QTok)) : List Nat :=
  (cs.map dollars).flatten

/-- A request-info search with only a relative last-duration window of five
minutes (300s), exporting as csv. -/
def c1Query : SearchQuery :=
  { query := QType.reqInfoQ, timeStart := none, timeEnd := none,
    lastDuration := some 300000000000, fparams := [], timeAscending := false,
    pageNumber := 0, pageSize := 10, exportFormat := "csv" }

/-- A sample event for concrete evaluations: the request content length is
derivable (42), the response content length is not. -/
def sampleEvent : Event :=
  { time := 1700000000000000000
    api := { name := "PutObject", accessKey := "AK", bucket := "b",
             object := "o", timeToResponse := 1234, status := "OK",
             statusCode := 200 }
    remoteHost := "10.0.0.1"
    requestID := "req-1"
    userAgent := "ua"
    getRequestContentLength := (42, none)
    getResponseContentLength := (0, some "content length unknown") }

/-- The empty database state. -/
def emptyDB : DBState := { auditLogEvents := [], requestInfo := [] }

/-- The transaction outcome in which every external call succeeds. -/
def txAllOk : TxOutcome :=
  { beginOk := true, marshalOk := true, insertRawOk := true,
    insertReqOk := true, commitOk := true }

/-- The transaction outcome in which the request-info insert fails. -/
def txFailReq : TxOutcome :=
  { beginOk := true, marshalOk := true, insertRawOk := true,
    insertReqOk := false, commitOk := true }

/-- A paginated raw-log search with both absolute bounds and one filter. -/
def sqBounds : SearchQuery :=
  { query := QType.rawQ, timeStart := some 100, timeEnd := some 200,
    lastDuration := none, fparams := [{ column := "api_name", value := "PutObject" }],
    timeAscending := true, pageNumber := 2, pageSize := 10, exportFormat := "" }

/-- The same search in csv export mode. -/
def sqBoundsCSV : SearchQuery :=
  { sqBounds with exportFormat := "csv" }

/-- A paginated search with page size zero (rejected by validation). -/
def sqZeroPage : SearchQuery :=
  { query := QType.rawQ, timeStart := none, timeEnd := none,
    lastDuration := none, fparams := [], timeAscending := false,
    pageNumber := 0, pageSize := 0, exportFormat := "" }

/-- A search with a sub-second last-duration window (half a second). -/
def sqHalfSecond : SearchQuery :=
  { query := QType.rawQ, timeStart := none, timeEnd := none,
    lastDuration := some 500000000, fparams := [], timeAscending := false,
    pageNumber := 0, pageSize := 10, exportFormat := "ndjson" }

/-- A raw-log search whose last-duration window is 16777216 s plus
999999999 ns — the float64 rounding of its seconds value lands on 16777217. -/
def sqLongDuration : SearchQuery :=
  { query := QType.rawQ, timeStart := none, timeEnd := none,
    lastDuration := some 16777216999999999, fparams := [], timeAscending := false,
    pageNumber := 0, pageSize := 10, exportFormat := "ndjson" }

/-- A sample request-info result row whose response content length is absent. -/
def sampleRow : ReqInfoRow :=
  { time := 1700000000000000000, apiName := "PutObject", accessKey := "AK",
    bucket := "b", object := "o", timeToResponseNs := 1234,
    remoteHost := "10.0.0.1", requestID := "req-1", userAgent := "ua",
    responseStatus := "OK", responseStatusCode := 200,
    requestContentLength := some 42, responseContentLength := none }

/-- A `QBuild` whose placeholders are exactly `$1..$len(args)` and whose next
free index is `len(args) + 1`. -/
def QBuild.wf (b : QBuild) : Prop :=
  clausesDollars b.whereClauses = List.range' 1 b.sqlArgs.length ∧
  b.dollarStart = b.sqlArgs.length + 1

/-! ## Helper lemmas -/

theorem dollars_append (xs ys : List QTok) :
    dollars (xs ++ ys) = dollars xs ++ dollars ys := by
  induction xs with
  | nil => rfl
  | cons t ts ih => cases t <;> simp [dollars, ih]

theorem clausesDollars_append (cs ds : List (List QTok)) :
    clausesDollars (cs ++ ds) = clausesDollars cs ++ clausesDollars ds := by
  simp [clausesDollars]

theorem dollars_qjoin (sep : String) (cs : List (List QTok)) :
    dollars (qjoin sep cs) = clausesDollars cs := by
  induction cs with
  | nil => rfl
  | cons c cs ih =>
    cases cs with
    | nil => simp [qjoin, clausesDollars]
    | cons c2 cs2 =>
      simp only [qjoin, dollars_append] at *
      simp [clausesDollars, dollars] at *
      simp [ih]

theorem dollars_whereTokens (cs : List (List QTok)) :
    dollars (whereTokens cs) = clausesDollars cs := by
  cases cs with
  | nil => rfl
  | cons c cs => simp [whereTokens, dollars, dollars_qjoin]

theorem range'_cons (s n : Nat) :
    List.range' s (n + 1) = s :: List.range' (s + 1) n := by
  simp [List.range'_succ]

theorem generateFilterClauses_spec (ps : List FParam) (n : Nat) :
    clausesDollars (generateFilterClauses ps n).1 = List.range' n ps.length ∧
    (generateFilterClauses ps n).2.1.length = ps.length ∧
    (generateFilterClauses ps n).2.2 = n + ps.length := by
  induction ps generalizing n with
  | nil => simp [generateFilterClauses, clausesDollars]
  | cons p ps ih =>
    obtain ⟨h1, h2, h3⟩ := ih (n + 1)
    refine ⟨?_, ?_, ?_⟩
    · simp [generateFilterClauses, clausesDollars, dollars] at *
      simp [h1, range'_cons]
    · simp [generateFilterClauses, h2]
    · simp [generateFilterClauses, h3]
      omega

theorem addFilterClauses_wf (b : QBuild) (ps : List FParam) (hb : b.wf) :
    (addFilterClauses b ps).wf := by
  obtain ⟨hpre, hd⟩ := hb
  obtain ⟨h1, h2, h3⟩ := generateFilterClauses_spec ps b.dollarStart
  constructor
  · show clausesDollars (b.whereClauses ++ (generateFilterClauses ps b.dollarStart).1) = _
    rw [clausesDollars_append, hpre, h1, hd]
    rw [show b.sqlArgs.length + 1 = 1 + b.sqlArgs.length from Nat.add_comm _ _]
    rw [List.range'_append_1]
    show _ = List.range' 1 (b.sqlArgs ++ (generateFilterClauses ps b.dollarStart).2.1).length
    rw [List.length_append, h2, Nat.add_comm]
  · show (generateFilterClauses ps b.dollarStart).2.2 =
      (b.sqlArgs ++ (generateFilterClauses ps b.dollarStart).2.1).length + 1
    rw [h3, List.length_append, h2, hd]
    omega

theorem rawTimeWhere_wf (s : SearchQuery) : (rawTimeWhere s).wf := by
  rcases hts : s.timeStart with _ | t <;>
    rcases hte : s.timeEnd with _ | u <;>
      rcases hld : s.lastDuration with _ | d <;>
        simp only [rawTimeWhere, hts, hte, hld, QBuild.wf] <;>
          exact ⟨rfl, rfl⟩

theorem reqInfoTimeWhere_wf (s : SearchQuery) : (reqInfoTimeWhere s).wf := by
  rcases hts : s.timeStart with _ | t <;>
    rcases hte : s.timeEnd with _ | u <;>
      rcases hld : s.lastDuration with _ | d <;>
        simp only [reqInfoTimeWhere, hts, hte, hld, QBuild.wf] <;>
          exact ⟨rfl, rfl⟩

theorem rawWhereArgs_wf (s : SearchQuery) : (rawWhereArgs s).wf :=
  addFilterClauses_wf _ _ (rawTimeWhere_wf s)

theorem reqInfoWhereArgs_wf (s : SearchQuery) : (reqInfoWhereArgs s).wf :=
  addFilterClauses_wf _ _ (reqInfoTimeWhere_wf s)

theorem dollars_logEventSelect (n : String) (w : List QTok) (o : String)
    (pg : List QTok) :
    dollars (logEventSelect n w o pg) = dollars w ++ dollars pg := by
  simp [logEventSelect, dollars_append, dollars]

theorem dollars_reqInfoSelect (n : String) (w : List QTok) (o : String)
    (pg : List QTok) :
    dollars (reqInfoSelect n w o pg) = dollars w ++ dollars pg := by
  simp [reqInfoSelect, dollars_append, dollars]

theorem branch_dollars (b : QBuild) (hb : b.wf) (s : SearchQuery) :
    dollars (whereTokens b.whereClauses) ++ dollars (pagingFor s b.dollarStart).1 =
      List.range' 1 (b.sqlArgs ++ (pagingFor s b.dollarStart).2).length := by
  obtain ⟨h1, h2⟩ := hb
  rw [dollars_whereTokens, h1, h2]
  by_cases hef : s.exportFormat = ""
  · have h3 := List.range'_append_1 1 b.sqlArgs.length 2
    rw [Nat.add_comm 1 b.sqlArgs.length] at h3
    rw [List.range'_succ, List.range'_one] at h3
    simp only [pagingFor, hef, if_pos, dollars, List.length_append]
    simpa [Nat.add_comm] using h3
  · simp [pagingFor, hef, dollars]

theorem roundHalfEven_le (x : ℚ) : (roundHalfEven x : ℚ) ≤ x + 1/2 := by
  have h1 : (⌊x⌋ : ℚ) ≤ x := Int.floor_le x
  have h2 : x < ⌊x⌋ + 1 := Int.lt_floor_add_one x
  simp only [roundHalfEven]
  split_ifs <;> push_cast <;> linarith

theorem le_roundHalfEven (x : ℚ) : x - 1/2 ≤ (roundHalfEven x : ℚ) := by
  have h1 : (⌊x⌋ : ℚ) ≤ x := Int.floor_le x
  have h2 : x < ⌊x⌋ + 1 := Int.lt_floor_add_one x
  simp only [roundHalfEven]
  split_ifs <;> push_cast <;> linarith

theorem roundHalfEven_nonneg (x : ℚ) (hx : 0 ≤ x) : 0 ≤ roundHalfEven x := by
  have h1 : 0 ≤ ⌊x⌋ := Int.floor_nonneg.mpr hx
  simp only [roundHalfEven]
  split_ifs <;> omega

theorem roundHalfEven_intCast (n : ℤ) : roundHalfEven (n : ℚ) = n := by
  simp only [roundHalfEven, Int.floor_intCast]
  rw [if_pos (by norm_num)]

theorem roundHalfEven_eq_down (x : ℚ) (f : ℤ) (hf : ⌊x⌋ = f) (h : x - f < 1/2) :
    roundHalfEven x = f := by
  simp only [roundHalfEven, hf]
  rw [if_pos h]

theorem roundHalfEven_eq_up (x : ℚ) (f : ℤ) (hf : ⌊x⌋ = f) (h : 1/2 < x - f) :
    roundHalfEven x = f + 1 := by
  simp only [roundHalfEven, hf]
  rw [if_neg (by linarith), if_pos h]

theorem binade_aux_low (a b : ℕ) (ha : a ≠ 0) (hb : b ≠ 0) :
    (2 : ℚ) ^ ((Nat.log2 a : ℤ) - (Nat.log2 b : ℤ) - 1) ≤ (a : ℚ) / (b : ℚ) := by
  have hla : ((2 : ℚ)) ^ (Nat.log2 a) ≤ (a : ℚ) := by
    exact_mod_cast Nat.log2_self_le ha
  have hlb : ((b : ℚ)) < (2 : ℚ) ^ (Nat.log2 b + 1) := by
    exact_mod_cast Nat.lt_log2_self
  have hbpos : (0 : ℚ) < (b : ℚ) := by
    exact_mod_cast Nat.pos_of_ne_zero hb
  have hpow : (2 : ℚ) ^ ((Nat.log2 a : ℤ) - (Nat.log2 b : ℤ) - 1) =
      (2 : ℚ) ^ (Nat.log2 a) / (2 : ℚ) ^ (Nat.log2 b + 1) := by
    rw [show (Nat.log2 a : ℤ) - (Nat.log2 b : ℤ) - 1 =
        ((Nat.log2 a : ℕ) : ℤ) - ((Nat.log2 b + 1 : ℕ) : ℤ) by push_cast; ring]
    rw [zpow_sub₀ (by norm_num), zpow_natCast, zpow_natCast]
  rw [hpow, div_le_div_iff (by positivity) hbpos]
  calc (2 : ℚ) ^ (Nat.log2 a) * (b : ℚ)
      ≤ (a : ℚ) * (b : ℚ) := mul_le_mul_of_nonneg_right hla hbpos.le
    _ ≤ (a : ℚ) * (2 : ℚ) ^ (Nat.log2 b + 1) :=
        mul_le_mul_of_nonneg_left hlb.le (by positivity)

theorem binade_aux_high (a b : ℕ) (ha : a ≠ 0) (hb : b ≠ 0) :
    (a : ℚ) / (b : ℚ) < (2 : ℚ) ^ ((Nat.log2 a : ℤ) - (Nat.log2 b : ℤ) + 1) := by
  have hla : ((a : ℚ)) < (2 : ℚ) ^ (Nat.log2 a + 1) := by
    exact_mod_cast Nat.lt_log2_self
  have hlb : ((2 : ℚ)) ^ (Nat.log2 b) ≤ (b : ℚ) := by
    exact_mod_cast Nat.log2_self_le hb
  have hbpos : (0 : ℚ) < (b : ℚ) := by
    exact_mod_cast Nat.pos_of_ne_zero hb
  have hpow : (2 : ℚ) ^ ((Nat.log2 a : ℤ) - (Nat.log2 b : ℤ) + 1) =
      (2 : ℚ) ^ (Nat.log2 a + 1) / (2 : ℚ) ^ (Nat.log2 b) := by
    rw [show (Nat.log2 a : ℤ) - (Nat.log2 b : ℤ) + 1 =
        ((Nat.log2 a + 1 : ℕ) : ℤ) - ((Nat.log2 b : ℕ) : ℤ) by push_cast; ring]
    rw [zpow_sub₀ (by norm_num), zpow_natCast, zpow_natCast]
  rw [hpow, div_lt_div_iff hbpos (by positivity)]
  calc (a : ℚ) * (2 : ℚ) ^ (Nat.log2 b)
      ≤ (a : ℚ) * (b : ℚ) := mul_le_mul_of_nonneg_left hlb (by positivity)
    _ < (2 : ℚ) ^ (Nat.log2 a + 1) * (b : ℚ) := mul_lt_mul_of_pos_right hla hbpos

theorem rat_eq_natAbs_div (q : ℚ) (hq : 0 < q) :
    q = (q.num.natAbs : ℚ) / (q.den : ℚ) := by
  have hnum : (0 : ℤ) < q.num := Rat.num_pos.mpr hq
  have h1 : (q.num.natAbs : ℤ) = q.num := Int.natAbs_of_nonneg hnum.le
  have h2 : ((q.num.natAbs : ℚ)) = (q.num : ℚ) := by
    calc ((q.num.natAbs : ℚ)) = (((q.num.natAbs : ℤ)) : ℚ) := (Int.cast_natCast _).symm
      _ = (q.num : ℚ) := by rw [h1]
  rw [h2, Rat.num_div_den]

theorem binadeExp_le (q : ℚ) (hq : 0 < q) : (2 : ℚ) ^ binadeExp q ≤ q := by
  have hnum : (0 : ℤ) < q.num := Rat.num_pos.mpr hq
  have hlow := binade_aux_low q.num.natAbs q.den (by omega) q.den_nz
  rw [← rat_eq_natAbs_div q hq] at hlow
  rw [binadeExp]
  split_ifs with h
  · exact h
  · exact hlow

theorem lt_binadeExp (q : ℚ) (hq : 0 < q) : q < (2 : ℚ) ^ (binadeExp q + 1) := by
  have hnum : (0 : ℤ) < q.num := Rat.num_pos.mpr hq
  have hhigh := binade_aux_high q.num.natAbs q.den (by omega) q.den_nz
  rw [← rat_eq_natAbs_div q hq] at hhigh
  rw [binadeExp]
  split_ifs with h
  · exact hhigh
  · rw [show (Nat.log2 q.num.natAbs : ℤ) - (Nat.log2 q.den : ℤ) - 1 + 1 =
        (Nat.log2 q.num.natAbs : ℤ) - (Nat.log2 q.den : ℤ) by ring]
    exact lt_of_not_le h

theorem binadeExp_eq (q : ℚ) (a : ℤ) (h1 : (2 : ℚ) ^ a ≤ q)
    (h2 : q < (2 : ℚ) ^ (a + 1)) : binadeExp q = a := by
  have hq : 0 < q := lt_of_lt_of_le (zpow_pos (by norm_num) a) h1
  have hle := binadeExp_le q hq
  have hlt := lt_binadeExp q hq
  by_contra hne
  rcases lt_or_gt_of_ne hne with h | h
  · have : (2 : ℚ) ^ (binadeExp q + 1) ≤ (2 : ℚ) ^ a :=
      zpow_le_zpow_right₀ (by norm_num) (by omega)
    linarith
  · have : (2 : ℚ) ^ (a + 1) ≤ (2 : ℚ) ^ (binadeExp q) :=
      zpow_le_zpow_right₀ (by norm_num) (by omega)
    linarith

theorem rndPos_nonneg (q : ℚ) (hq : 0 ≤ q) : 0 ≤ rndPos q := by
  have hu : (0 : ℚ) < (2 : ℚ) ^ (binadeExp q - 52) := zpow_pos (by norm_num) _
  have h1 : (0 : ℚ) ≤ (roundHalfEven (q / (2 : ℚ) ^ (binadeExp q - 52)) : ℚ) := by
    exact_mod_cast roundHalfEven_nonneg _ (by positivity)
  exact mul_nonneg h1 hu.le

theorem rndPos_le (q : ℚ) (hq : 0 < q) :
    rndPos q ≤ q + (2 : ℚ) ^ (binadeExp q - 53) := by
  have hu : (0 : ℚ) < (2 : ℚ) ^ (binadeExp q - 52) := zpow_pos (by norm_num) _
  have h1 := roundHalfEven_le (q / (2 : ℚ) ^ (binadeExp q - 52))
  have h2 : rndPos q ≤
      (q / (2 : ℚ) ^ (binadeExp q - 52) + 1/2) * (2 : ℚ) ^ (binadeExp q - 52) := by
    simp only [rndPos]
    exact mul_le_mul_of_nonneg_right h1 hu.le
  have h3 : (q / (2 : ℚ) ^ (binadeExp q - 52) + 1/2) * (2 : ℚ) ^ (binadeExp q - 52) =
      q + (2 : ℚ) ^ (binadeExp q - 52) / 2 := by
    field_simp
    ring
  have h4 : (2 : ℚ) ^ (binadeExp q - 52) / 2 = (2 : ℚ) ^ (binadeExp q - 53) := by
    rw [show binadeExp q - 52 = (binadeExp q - 53) + 1 by ring,
      zpow_add_one₀ (by norm_num : (2:ℚ) ≠ 0)]
    ring
  calc rndPos q ≤ _ := h2
    _ = q + (2 : ℚ) ^ (binadeExp q - 53) := by rw [h3, h4]

theorem rnd_zero : rnd 0 = 0 := by
  simp [rnd]

theorem rnd_nonneg (q : ℚ) (hq : 0 ≤ q) : 0 ≤ rnd q := by
  simp only [rnd]
  split_ifs with h1 h2
  · exact le_refl 0
  · exact absurd h2 (not_lt.mpr hq)
  · exact rndPos_nonneg q hq

theorem rnd_le (q : ℚ) (hq : 0 < q) : rnd q ≤ q + (2 : ℚ) ^ (binadeExp q - 53) := by
  simp only [rnd]
  rw [if_neg hq.ne', if_neg (not_lt.mpr hq.le)]
  exact rndPos_le q hq

theorem rnd_eq (q : ℚ) (e v : ℤ) (hq : 0 < q) (he : binadeExp q = e)
    (hv : roundHalfEven (q / (2 : ℚ) ^ (e - 52)) = v) :
    rnd q = (v : ℚ) * (2 : ℚ) ^ (e - 52) := by
  simp only [rnd, rndPos]
  rw [if_neg hq.ne', if_neg (not_lt.mpr hq.le), he, hv]

theorem rnd_intCast (k : ℤ) (h0 : 0 ≤ k) (h1 : k ≤ 9223372036) :
    rnd (k : ℚ) = (k : ℚ) := by
  rcases eq_or_lt_of_le h0 with h | h
  · rw [← h]
    simpa using rnd_zero
  · have hk : (0 : ℚ) < (k : ℚ) := by exact_mod_cast h
    have hle : (2 : ℚ) ^ binadeExp (k : ℚ) ≤ (k : ℚ) := binadeExp_le _ hk
    have he52 : binadeExp (k : ℚ) ≤ 52 := by
      by_contra hc
      push_neg at hc
      have hz : (2 : ℚ) ^ (53 : ℤ) ≤ (2 : ℚ) ^ binadeExp (k : ℚ) :=
        zpow_le_zpow_right₀ (by norm_num) (by omega)
      have hz2 : (2 : ℚ) ^ (53 : ℤ) ≤ (k : ℚ) := le_trans hz hle
      have hk9 : (k : ℚ) ≤ 9223372036 := by exact_mod_cast h1
      rw [show (53 : ℤ) = ((53 : ℕ) : ℤ) from rfl, zpow_natCast] at hz2
      norm_num at hz2
      linarith
    have hm : (((52 - binadeExp (k : ℚ)).toNat : ℤ)) = 52 - binadeExp (k : ℚ) :=
      Int.toNat_of_nonneg (by omega)
    have hu : (2 : ℚ) ^ (binadeExp (k : ℚ) - 52) =
        ((2 : ℚ) ^ ((52 - binadeExp (k : ℚ)).toNat))⁻¹ := by
      rw [← zpow_natCast (2 : ℚ) ((52 - binadeExp (k : ℚ)).toNat), ← zpow_neg]
      congr 1
      omega
    have hdiv : (k : ℚ) / (2 : ℚ) ^ (binadeExp (k : ℚ) - 52) =
        ((k * 2 ^ ((52 - binadeExp (k : ℚ)).toNat) : ℤ) : ℚ) := by
      rw [hu, div_eq_mul_inv, inv_inv]
      push_cast
      ring
    simp only [rnd, rndPos]
    rw [if_neg hk.ne', if_neg (not_lt.mpr hk.le), hdiv, roundHalfEven_intCast, hu]
    push_cast
    have h2m : ((2 : ℚ) ^ ((52 - binadeExp (k : ℚ)).toNat)) ≠ 0 := by positivity
    field_simp

theorem rnd_1e9 : rnd (1000000000 : ℚ) = 1000000000 := by
  have h := rnd_intCast 1000000000 (by norm_num) (by norm_num)
  push_cast at h
  exact h

/-- `int64(d.Seconds())` is exactly the seconds count on whole-second
durations. -/
theorem goDurationSeconds_whole (k : ℤ) (h0 : 0 ≤ k) (h1 : k ≤ 9223372036) :
    goDurationSeconds (k * 1000000000) = k := by
  have htd : (k * 1000000000).tdiv 1000000000 = k := Int.mul_tdiv_cancel k (by norm_num)
  have htm : (k * 1000000000).tmod 1000000000 = 0 := Int.mul_tmod_left k 1000000000
  simp only [goDurationSeconds, goSeconds]
  rw [htd, htm, Int.cast_zero, rnd_zero, zero_div, rnd_zero, add_zero]
  rw [rnd_intCast k h0 h1, rnd_intCast k h0 h1]
  simp only [ratTrunc]
  rw [if_neg (not_lt.mpr (by exact_mod_cast h0)), Int.floor_intCast]

/-- `int64(d.Seconds())` is zero on every sub-second duration. -/
theorem goDurationSeconds_subsecond (d : ℤ) (h0 : 0 ≤ d) (h1 : d < 1000000000) :
    goDurationSeconds d = 0 := by
  rcases eq_or_lt_of_le h0 with h | hpos
  · rw [← h]
    simp [goDurationSeconds, goSeconds, rnd_zero, ratTrunc]
  · have htd : d.tdiv 1000000000 = 0 := by
      rw [Int.tdiv_eq_ediv h0 (by norm_num)]
      omega
    have htm : d.tmod 1000000000 = d := by
      rw [Int.tmod_eq_emod h0 (by norm_num)]
      omega
    simp only [goDurationSeconds, goSeconds]
    rw [htd, htm, Int.cast_zero, rnd_zero, zero_add]
    rw [rnd_intCast d h0 (by omega), rnd_1e9]
    have hdpos : (0 : ℚ) < (d : ℚ) := by exact_mod_cast hpos
    have hd999 : (d : ℚ) ≤ 999999999 := by
      exact_mod_cast (by omega : d ≤ 999999999)
    have hq0 : 0 < (d : ℚ) / 1000000000 := by positivity
    have hq1 : (d : ℚ) / 1000000000 ≤ 1 - 1/1000000000 := by
      rw [div_le_iff (by norm_num)]
      linarith
    have hbound : ∀ y : ℚ, 0 < y → y < 1 → rnd y ≤ y + 1/4000000000 := by
      intro y hy0 hy1
      have he : binadeExp y ≤ -1 := by
        by_contra hc
        push_neg at hc
        have h2 : (1 : ℚ) ≤ (2 : ℚ) ^ binadeExp y := one_le_zpow₀ (by norm_num) (by omega)
        have h3 := binadeExp_le y hy0
        linarith
      have h4 := rnd_le y hy0
      have h5 : (2 : ℚ) ^ (binadeExp y - 53) ≤ (2 : ℚ) ^ (-54 : ℤ) :=
        zpow_le_zpow_right₀ (by norm_num) (by omega)
      have h6 : (2 : ℚ) ^ (-54 : ℤ) ≤ 1/4000000000 := by
        rw [zpow_neg, show (54 : ℤ) = ((54 : ℕ) : ℤ) from rfl, zpow_natCast]
        norm_num
      exact le_trans h4 (add_le_add_left (le_trans h5 h6) y)
    have hx0 : 0 ≤ rnd ((d : ℚ) / 1000000000) := rnd_nonneg _ hq0.le
    have hx1 : rnd ((d : ℚ) / 1000000000) < 1 := by
      have := hbound ((d : ℚ) / 1000000000) hq0 (by linarith)
      linarith
    rcases eq_or_lt_of_le hx0 with hx | hx
    · rw [← hx, rnd_zero]
      simp [ratTrunc]
    · have hy0 : 0 ≤ rnd (rnd ((d : ℚ) / 1000000000)) := rnd_nonneg _ hx.le
      have hy1 : rnd (rnd ((d : ℚ) / 1000000000)) < 1 := by
        have h7 := hbound (rnd ((d : ℚ) / 1000000000)) hx hx1
        have h8 := hbound ((d : ℚ) / 1000000000) hq0 (by linarith)
        linarith
      simp only [ratTrunc]
      rw [if_neg (not_lt.mpr hy0), Int.floor_eq_zero_iff]
      exact ⟨hy0, hy1⟩

theorem writeCSVRows_ok (wf : Nat → Bool) (h : ∀ k, wf k = true) :
    ∀ (k : Nat) (rows : List ReqInfoRow),
      writeCSVRows wf k rows =
        (true, rows.map fun r => CSVOp.write (reqInfoCSVRecord r)) := by
  intro k rows
  induction rows generalizing k with
  | nil => rfl
  | cons r rs ih => simp [writeCSVRows, h k, ih]

/-! ## The claims -/

/-- C1: the claim says the relative last-duration predicate of a request-info
search constrains the target table's own time column (`time`), as the
absolute bounds do. The code (`db.go` line 488) instead builds the predicate
on `event_time`, a column the `request_info` table does not have, while the
absolute bounds in the same branch correctly use `time`: for the concrete
request `c1Query` (request-info target, last duration 300s), which passes
validation, the only WHERE clause produced references `event_time`. -/
theorem reqInfo_lastDuration_wrong_column :
    validateSearchQuery c1Query = Except.ok () ∧
    (reqInfoWhereArgs c1Query).whereClauses =
      [[QTok.str "event_time >= CURRENT_TIMESTAMP - '300 seconds'::interval"]] ∧
    requestInfoTable.columns.head? = some "time" ∧
    "event_time" ∉ requestInfoTable.columns ∧
    (∀ t : Int,
      (reqInfoWhereArgs { c1Query with timeStart := some t, lastDuration := none }).whereClauses =
        [[QTok.str "time >= ", QTok.dollar 1]]) := by
  have h300 : goDurationSeconds 300000000000 = 300 := by
    have h := goDurationSeconds_whole 300 (by norm_num) (by norm_num)
    norm_num at h
    exact h
  refine ⟨rfl, ?_, rfl, by decide, fun t => rfl⟩
  have hwc : (reqInfoWhereArgs c1Query).whereClauses =
      [[QTok.str ("event_time >= CURRENT_TIMESTAMP - '" ++
        toString (goDurationSeconds 300000000000) ++ " seconds'::interval")]] := rfl
  rw [hwc, h300]
  decide

/-- C2: for every non-empty, parseable event, `InsertEvent` runs one
transaction that inserts the raw-log row first and the request-info row
second and commits; on success both rows are appended, on any failure of an
external call the state is unchanged (the transaction was rolled back or
never begun) and neither row is visible. -/
theorem InsertEvent_atomic (parse : String → Except String Event)
    (marshal : Event → String) (o : TxOutcome) (eventBytes : String)
    (st : DBState) (e : Event)
    (hne : isEmptyEvent eventBytes = false)
    (hp : parse eventBytes = Except.ok e) :
    ((InsertEvent parse marshal o eventBytes st).ok = true →
      (InsertEvent parse marshal o eventBytes st).state =
        { auditLogEvents := st.auditLogEvents ++ [{ eventTime := e.time, log := marshal e }],
          requestInfo := st.requestInfo ++ [reqInfoRowOf e] } ∧
      (InsertEvent parse marshal o eventBytes st).trace =
        [DBOp.beginTx, DBOp.execInsertRaw { eventTime := e.time, log := marshal e },
         DBOp.execInsertReq (reqInfoRowOf e), DBOp.commit]) ∧
    ((InsertEvent parse marshal o eventBytes st).ok = false →
      (InsertEvent parse marshal o eventBytes st).state = st ∧
      ((InsertEvent parse marshal o eventBytes st).trace = [] ∨
       (InsertEvent parse marshal o eventBytes st).trace.getLast? = some DBOp.rollback)) := by
  rcases o with ⟨b, m, ir, iq, c⟩
  cases b <;> cases m <;> cases ir <;> cases iq <;> cases c <;>
    simp [InsertEvent, hne, hp]

/-- Witness for C2: on a concrete event, the all-success outcome appends both
rows, and the outcome failing the request-info insert leaves the state
unchanged. -/
theorem InsertEvent_atomic_witness :
    (InsertEvent (fun _ => Except.ok sampleEvent) (fun _ => "{}") txAllOk "x" emptyDB).state =
      { auditLogEvents := [{ eventTime := sampleEvent.time, log := "{}" }],
        requestInfo := [reqInfoRowOf sampleEvent] } ∧
    (InsertEvent (fun _ => Except.ok sampleEvent) (fun _ => "{}") txFailReq "x" emptyDB).state =
      emptyDB :=
  ⟨((InsertEvent_atomic (fun _ => Except.ok sampleEvent) (fun _ => "{}") txAllOk "x"
      emptyDB sampleEvent (by decide) rfl).1 rfl).1,
   ((InsertEvent_atomic (fun _ => Except.ok sampleEvent) (fun _ => "{}") txFailReq "x"
      emptyDB sampleEvent (by decide) rfl).2 rfl).1⟩

/-- C3: a paginated request (empty export format) with page size zero is
rejected with `InvalidRequest` before any query is built, and so is a
request supplying both absolute time bounds together with a relative
duration. -/
theorem searchPipeline_rejects_invalid (s : SearchQuery)
    (h : (s.exportFormat = "" ∧ s.pageSize = 0) ∨
         ((s.timeStart.isSome = true ∧ s.timeEnd.isSome = true) ∧
          s.lastDuration.isSome = true)) :
    ∃ msg, searchPipeline s = Except.error (SearchErr.invalidRequest msg) := by
  rcases h with ⟨h1, h2⟩ | ⟨⟨h1, h2⟩, h3⟩
  · exact ⟨"page size must be nonzero", by simp [searchPipeline, validateSearchQuery, h1, h2]⟩
  · by_cases hz : s.exportFormat = "" ∧ s.pageSize = 0
    · exact ⟨"page size must be nonzero", by simp [searchPipeline, validateSearchQuery, hz.1, hz.2]⟩
    · exact ⟨"cannot combine time range with last duration",
        by simp [searchPipeline, validateSearchQuery, hz, h1, h3]⟩

/-- Witness for C3: the concrete zero-page-size paginated request is
rejected. -/
theorem searchPipeline_rejects_invalid_witness :
    ∃ msg, searchPipeline sqZeroPage = Except.error (SearchErr.invalidRequest msg) :=
  searchPipeline_rejects_invalid sqZeroPage (Or.inl ⟨rfl, rfl⟩)

/-- C4: in both branches, an absolute start bound contributes the clause
`col >= $n` (inclusive) and an absolute end bound the clause `col < $n`
(exclusive), each bound only through a positional argument; predicates are
joined with `AND` under a `WHERE` prefix, and the WHERE clause is omitted
entirely when no predicate exists. -/
theorem search_where_absolute_bounds (s : SearchQuery) :
    (∀ t, s.timeStart = some t →
      (rawWhereArgs s).whereClauses.head? =
        some [QTok.str "event_time >= ", QTok.dollar 1] ∧
      (rawWhereArgs s).sqlArgs.head? = some (SQLArg.str (rfc3339Nano t)) ∧
      (reqInfoWhereArgs s).whereClauses.head? =
        some [QTok.str "time >= ", QTok.dollar 1] ∧
      (reqInfoWhereArgs s).sqlArgs.head? = some (SQLArg.str (rfc3339Nano t))) ∧
    (∀ u, s.timeStart = none → s.timeEnd = some u →
      (rawWhereArgs s).whereClauses.head? =
        some [QTok.str "event_time < ", QTok.dollar 1] ∧
      (rawWhereArgs s).sqlArgs.head? = some (SQLArg.str (rfc3339Nano u)) ∧
      (reqInfoWhereArgs s).whereClauses.head? =
        some [QTok.str "time < ", QTok.dollar 1] ∧
      (reqInfoWhereArgs s).sqlArgs.head? = some (SQLArg.str (rfc3339Nano u))) ∧
    (∀ t u, s.timeStart = some t → s.timeEnd = some u →
      (rawWhereArgs s).whereClauses.tail.head? =
        some [QTok.str "event_time < ", QTok.dollar 2] ∧
      (rawWhereArgs s).sqlArgs.tail.head? = some (SQLArg.str (rfc3339Nano u)) ∧
      (reqInfoWhereArgs s).whereClauses.tail.head? =
        some [QTok.str "time < ", QTok.dollar 2] ∧
      (reqInfoWhereArgs s).sqlArgs.tail.head? = some (SQLArg.str (rfc3339Nano u))) ∧
    (s.timeStart = none → s.timeEnd = none → s.lastDuration = none → s.fparams = [] →
      whereTokens (rawWhereArgs s).whereClauses = [] ∧
      whereTokens (reqInfoWhereArgs s).whereClauses = []) ∧
    (∀ c cs, whereTokens (c :: cs) = QTok.str "WHERE " :: qjoin " AND " (c :: cs)) := by
  refine ⟨?_, ?_, ?_, ?_, fun c cs => rfl⟩
  · intro t ht
    rcases hte : s.timeEnd with _ | u <;> rcases hld : s.lastDuration with _ | d <;>
      simp [rawWhereArgs, reqInfoWhereArgs, addFilterClauses, rawTimeWhere,
            reqInfoTimeWhere, ht, hte, hld]
  · intro u ht he
    rcases hld : s.lastDuration with _ | d <;>
      simp [rawWhereArgs, reqInfoWhereArgs, addFilterClauses, rawTimeWhere,
            reqInfoTimeWhere, ht, he, hld]
  · intro t u ht he
    rcases hld : s.lastDuration with _ | d <;>
      simp [rawWhereArgs, reqInfoWhereArgs, addFilterClauses, rawTimeWhere,
            reqInfoTimeWhere, ht, he, hld]
  · intro h1 h2 h3 h4
    simp [rawWhereArgs, reqInfoWhereArgs, addFilterClauses, rawTimeWhere,
          reqInfoTimeWhere, generateFilterClauses, whereTokens, h1, h2, h3, h4]

/-- Witness for C4: concrete bounds on `sqBounds` produce the start clause at
`$1` and the end clause at `$2` in the raw branch. -/
theorem search_where_absolute_bounds_witness :
    (rawWhereArgs sqBounds).whereClauses.head? =
      some [QTok.str "event_time >= ", QTok.dollar 1] ∧
    (rawWhereArgs sqBounds).whereClauses.tail.head? =
      some [QTok.str "event_time < ", QTok.dollar 2] :=
  ⟨((search_where_absolute_bounds sqBounds).1 100 rfl).1,
   ((search_where_absolute_bounds sqBounds).2.2.1 100 200 rfl rfl).1⟩

/-- C5: the paging clause `OFFSET $n LIMIT $(n+1)` with positional arguments
`pageNumber*pageSize` and `pageSize` is appended exactly when the export
format is the empty string; for any other export format (ndjson, csv) no
OFFSET/LIMIT is appended and the argument list is the WHERE arguments
alone. -/
theorem search_paging_only_in_paginated_mode (s : SearchQuery) :
    (s.exportFormat = "" →
      (rawQueryAndArgs s).1 =
        logEventSelect auditLogEventsTable.name
          (whereTokens (rawWhereArgs s).whereClauses) (timeOrder s)
          [QTok.str "OFFSET ", QTok.dollar (rawWhereArgs s).dollarStart,
           QTok.str " LIMIT ", QTok.dollar ((rawWhereArgs s).dollarStart + 1)] ∧
      (rawQueryAndArgs s).2 = (rawWhereArgs s).sqlArgs ++
        [SQLArg.int (s.pageNumber * s.pageSize), SQLArg.int s.pageSize] ∧
      (reqInfoQueryAndArgs s).1 =
        reqInfoSelect requestInfoTable.name
          (whereTokens (reqInfoWhereArgs s).whereClauses) (timeOrder s)
          [QTok.str "OFFSET ", QTok.dollar (reqInfoWhereArgs s).dollarStart,
           QTok.str " LIMIT ", QTok.dollar ((reqInfoWhereArgs s).dollarStart + 1)] ∧
      (reqInfoQueryAndArgs s).2 = (reqInfoWhereArgs s).sqlArgs ++
        [SQLArg.int (s.pageNumber * s.pageSize), SQLArg.int s.pageSize]) ∧
    (s.exportFormat ≠ "" →
      (rawQueryAndArgs s).1 =
        logEventSelect auditLogEventsTable.name
          (whereTokens (rawWhereArgs s).whereClauses) (timeOrder s) [] ∧
      (rawQueryAndArgs s).2 = (rawWhereArgs s).sqlArgs ∧
      (reqInfoQueryAndArgs s).1 =
        reqInfoSelect requestInfoTable.name
          (whereTokens (reqInfoWhereArgs s).whereClauses) (timeOrder s) [] ∧
      (reqInfoQueryAndArgs s).2 = (reqInfoWhereArgs s).sqlArgs) := by
  constructor <;> intro h <;>
    exact ⟨by simp [rawQueryAndArgs, pagingFor, h],
           by simp [rawQueryAndArgs, pagingFor, h],
           by simp [reqInfoQueryAndArgs, pagingFor, h],
           by simp [reqInfoQueryAndArgs, pagingFor, h]⟩

/-- Witness for C5: paginated mode appends the two paging arguments; csv mode
appends nothing. -/
theorem search_paging_only_in_paginated_mode_witness :
    (rawQueryAndArgs sqBounds).2 = (rawWhereArgs sqBounds).sqlArgs ++
      [SQLArg.int (sqBounds.pageNumber * sqBounds.pageSize), SQLArg.int sqBounds.pageSize] ∧
    (rawQueryAndArgs sqBoundsCSV).2 = (rawWhereArgs sqBoundsCSV).sqlArgs :=
  ⟨((search_paging_only_in_paginated_mode sqBounds).1 rfl).2.1,
   ((search_paging_only_in_paginated_mode sqBoundsCSV).2 (by decide)).2.1⟩

/-- C6: an empty or whitespace-only payload is accepted as a no-op success:
no parse (the result does not depend on the parser), no transaction, no
database operation, and an unchanged state. -/
theorem InsertEvent_empty_noop (parse : String → Except String Event)
    (marshal : Event → String) (o : TxOutcome) (eventBytes : String)
    (st : DBState)
    (h : isEmptyEvent eventBytes = true) :
    InsertEvent parse marshal o eventBytes st = { ok := true, state := st, trace := [] } := by
  simp [InsertEvent, h]

/-- Witness for C6: a whitespace-only payload is a no-op even with a parser
that always fails and an outcome failing every call. -/
theorem InsertEvent_empty_noop_witness :
    InsertEvent (fun _ => Except.error "parse failure") (fun _ => "")
      { beginOk := false, marshalOk := false, insertRawOk := false,
        insertReqOk := false, commitOk := false } "  " emptyDB =
      { ok := true, state := emptyDB, trace := [] } :=
  InsertEvent_empty_noop _ _ _ _ _ (by decide)

/-- C7: the request-info row written by a successful `InsertEvent` stores a
content length as NULL (`none`) exactly when the getter reports it
underivable — never as zero — and as its numeric value when derivable. -/
theorem InsertEvent_content_length_nullable (parse : String → Except String Event)
    (marshal : Event → String) (o : TxOutcome) (eventBytes : String)
    (st : DBState) (e : Event)
    (hne : isEmptyEvent eventBytes = false)
    (hp : parse eventBytes = Except.ok e)
    (hok : (InsertEvent parse marshal o eventBytes st).ok = true) :
    (InsertEvent parse marshal o eventBytes st).state.requestInfo.getLast? =
      some (reqInfoRowOf e) ∧
    (reqInfoRowOf e).requestContentLength = contentLengthPtr e.getRequestContentLength ∧
    (reqInfoRowOf e).responseContentLength = contentLengthPtr e.getResponseContentLength ∧
    (∀ v msg, e.getRequestContentLength = (v, some msg) →
      (reqInfoRowOf e).requestContentLength = none) ∧
    (∀ v, e.getRequestContentLength = (v, none) →
      (reqInfoRowOf e).requestContentLength = some v) ∧
    (∀ v msg, e.getResponseContentLength = (v, some msg) →
      (reqInfoRowOf e).responseContentLength = none) ∧
    (∀ v, e.getResponseContentLength = (v, none) →
      (reqInfoRowOf e).responseContentLength = some v) := by
  refine ⟨?_, rfl, rfl, ?_, ?_, ?_, ?_⟩
  · rcases o with ⟨b, m, ir, iq, c⟩
    cases b <;> cases m <;> cases ir <;> cases iq <;> cases c <;>
      simp [InsertEvent, hne, hp] at hok ⊢
  · intro v msg hv; simp [reqInfoRowOf, contentLengthPtr, hv]
  · intro v hv; simp [reqInfoRowOf, contentLengthPtr, hv]
  · intro v msg hv; simp [reqInfoRowOf, contentLengthPtr, hv]
  · intro v hv; simp [reqInfoRowOf, contentLengthPtr, hv]

/-- Witness for C7: the sample event has a derivable request length (42) and
an underivable response length; the stored row has `some 42` and `none`. -/
theorem InsertEvent_content_length_nullable_witness :
    (InsertEvent (fun _ => Except.ok sampleEvent) (fun _ => "{}") txAllOk "x"
        emptyDB).state.requestInfo.getLast? = some (reqInfoRowOf sampleEvent) ∧
    (reqInfoRowOf sampleEvent).requestContentLength = some 42 ∧
    (reqInfoRowOf sampleEvent).responseContentLength = none := by
  have h := InsertEvent_content_length_nullable (fun _ => Except.ok sampleEvent)
    (fun _ => "{}") txAllOk "x" emptyDB sampleEvent (by decide) rfl (by decide)
  exact ⟨h.1, h.2.2.2.2.1 42 rfl, h.2.2.2.2.2.1 0 "content length unknown" rfl⟩

/-- C8: when every writer call succeeds, the csv export writes the fixed
header first, then one record per row in cursor order, and ends with a flush
and an error check; each record has the 13 schema fields, the timestamp in
the fixed high-precision format first, and nullable integers render as the
empty string when absent and as their decimal value otherwise. -/
theorem reqInfoCSVExport_shape (wf : Nat → Bool) (rows : List ReqInfoRow)
    (h : ∀ k, wf k = true) :
    reqInfoCSVExport wf rows =
      (true, CSVOp.write reqInfoCSVHeader ::
        ((rows.map fun r => CSVOp.write (reqInfoCSVRecord r)) ++
          [CSVOp.flush, CSVOp.checkError])) ∧
    (∀ i, (reqInfoCSVRecord i).length = 13 ∧
      (reqInfoCSVRecord i).head? = some (rfc3339Nano i.time)) ∧
    iPtrToStr none = "" ∧
    (∀ n : Nat, iPtrToStr (some n) = toString n) := by
  refine ⟨?_, fun i => ⟨rfl, rfl⟩, rfl, fun n => rfl⟩
  simp [reqInfoCSVExport, h 0, writeCSVRows_ok wf h 1 rows]

/-- Witness for C8: exporting one sample row yields header, record, flush,
error check. -/
theorem reqInfoCSVExport_shape_witness :
    reqInfoCSVExport (fun _ => true) [sampleRow] =
      (true, [CSVOp.write reqInfoCSVHeader, CSVOp.write (reqInfoCSVRecord sampleRow),
              CSVOp.flush, CSVOp.checkError]) := by
  have h := (reqInfoCSVExport_shape (fun _ => true) [sampleRow] (fun _ => rfl)).1
  simpa using h

/-- C9: in both branches and all export modes, the placeholders of the built
query text are exactly `$1..$len(args)` in order, so the i-th placeholder is
bound to the i-th positional argument. -/
theorem search_placeholders_consecutive (s : SearchQuery) :
    dollars (rawQueryAndArgs s).1 = List.range' 1 (rawQueryAndArgs s).2.length ∧
    dollars (reqInfoQueryAndArgs s).1 = List.range' 1 (reqInfoQueryAndArgs s).2.length := by
  constructor
  · show dollars (logEventSelect _ _ _ _) = _
    rw [dollars_logEventSelect]
    exact branch_dollars _ (rawWhereArgs_wf s) s
  · show dollars (reqInfoSelect _ _ _ _) = _
    rw [dollars_reqInfoSelect]
    exact branch_dollars _ (reqInfoWhereArgs_wf s) s

/-- C10 counterexample: the claim says the predicate embeds the duration
truncated to a whole number of seconds (the integer part of its seconds
value). For the duration 16777216 s + 999999999 ns the integer part is
16777216, but the `float64` sum computed by `Duration.Seconds` rounds to
exactly 16777217.0 (the 1 ns shortfall lies below half an ulp at `2^24`),
so the code embeds `'16777217 seconds'` — not the integer part — in the
clause. -/
theorem search_lastDuration_float_rounding_counterexample :
    goDurationSeconds 16777216999999999 = 16777217 ∧
    Int.tdiv 16777216999999999 1000000000 = 16777216 ∧
    ([QTok.str "event_time >= CURRENT_TIMESTAMP - '16777217 seconds'::interval"]
      ∈ (rawWhereArgs sqLongDuration).whereClauses) ∧
    [QTok.str "event_time >= CURRENT_TIMESTAMP - '16777216 seconds'::interval"]
      ∉ (rawWhereArgs sqLongDuration).whereClauses := by
  have hr9 : rnd (999999999 : ℚ) = 999999999 := by
    have h := rnd_intCast 999999999 (by norm_num) (by norm_num)
    push_cast at h
    exact h
  have hr16 : rnd (16777216 : ℚ) = 16777216 := by
    have h := rnd_intCast 16777216 (by norm_num) (by norm_num)
    push_cast at h
    exact h
  have e1 : binadeExp ((999999999 : ℚ) / 1000000000) = -1 := by
    apply binadeExp_eq
    · rw [show (-1 : ℤ) = -((1 : ℕ) : ℤ) from rfl, zpow_neg, zpow_natCast]
      norm_num
    · rw [show (-1 : ℤ) + 1 = ((0 : ℕ) : ℤ) by norm_num, zpow_natCast]
      norm_num
  have hrhe1 : roundHalfEven (((999999999 : ℚ) / 1000000000) / (2 : ℚ) ^ ((-1 : ℤ) - 52)) =
      9007199245733793 := by
    have harg : ((999999999 : ℚ) / 1000000000) / (2 : ℚ) ^ ((-1 : ℤ) - 52) =
        (9007199245733792745259008 : ℚ) / 1000000000 := by
      rw [show ((-1 : ℤ) - 52) = -((53 : ℕ) : ℤ) by norm_num, zpow_neg, zpow_natCast]
      norm_num
    rw [harg]
    apply roundHalfEven_eq_up _ 9007199245733792
    · rw [Int.floor_eq_iff]
      constructor
      · push_cast
        norm_num
      · push_cast
        norm_num
    · push_cast
      norm_num
  have hx1 : rnd ((999999999 : ℚ) / 1000000000) =
      (9007199245733793 : ℚ) / 9007199254740992 := by
    have h := rnd_eq ((999999999 : ℚ) / 1000000000) (-1) 9007199245733793
      (by norm_num) e1 hrhe1
    rw [h, show ((-1 : ℤ) - 52) = -((53 : ℕ) : ℤ) by norm_num, zpow_neg, zpow_natCast]
    norm_num
  have e2 : binadeExp ((16777216 : ℚ) + (9007199245733793 : ℚ) / 9007199254740992) = 24 := by
    apply binadeExp_eq
    · rw [show (24 : ℤ) = ((24 : ℕ) : ℤ) from rfl, zpow_natCast]
      norm_num
    · rw [show (24 : ℤ) + 1 = ((25 : ℕ) : ℤ) by norm_num, zpow_natCast]
      norm_num
  have hrhe2 : roundHalfEven
      (((16777216 : ℚ) + (9007199245733793 : ℚ) / 9007199254740992) / (2 : ℚ) ^ ((24 : ℤ) - 52)) =
      4503599895805952 := by
    have harg : ((16777216 : ℚ) + (9007199245733793 : ℚ) / 9007199254740992) /
        (2 : ℚ) ^ ((24 : ℤ) - 52) = (151115736459027892572065 : ℚ) / 33554432 := by
      rw [show ((24 : ℤ) - 52) = -((28 : ℕ) : ℤ) by norm_num, zpow_neg, zpow_natCast]
      norm_num
    rw [harg]
    apply roundHalfEven_eq_up _ 4503599895805951
    · rw [Int.floor_eq_iff]
      constructor
      · push_cast
        norm_num
      · push_cast
        norm_num
    · push_cast
      norm_num
  have hsum : rnd ((16777216 : ℚ) + (9007199245733793 : ℚ) / 9007199254740992) = 16777217 := by
    have h := rnd_eq ((16777216 : ℚ) + (9007199245733793 : ℚ) / 9007199254740992) 24
      4503599895805952 (by norm_num) e2 hrhe2
    rw [h, show ((24 : ℤ) - 52) = -((28 : ℕ) : ℤ) by norm_num, zpow_neg, zpow_natCast]
    norm_num
  have hval : goDurationSeconds 16777216999999999 = 16777217 := by
    have htd : (16777216999999999 : ℤ).tdiv 1000000000 = 16777216 := by decide
    have htm : (16777216999999999 : ℤ).tmod 1000000000 = 999999999 := by decide
    simp only [goDurationSeconds, goSeconds]
    rw [htd, htm]
    push_cast
    rw [hr16, hr9, rnd_1e9, hx1, hsum]
    simp only [ratTrunc]
    rw [if_neg (by norm_num), show ((16777217 : ℚ)) = (((16777217 : ℤ)) : ℚ) by norm_num,
      Int.floor_intCast]
  have hwc : (rawWhereArgs sqLongDuration).whereClauses =
      [[QTok.str ("event_time >= CURRENT_TIMESTAMP - '" ++
        toString (goDurationSeconds 16777216999999999) ++ " seconds'::interval")]] := rfl
  refine ⟨hval, by decide, ?_, ?_⟩
  · rw [hwc, hval]
    decide
  · rw [hwc, hval]
    decide

/-- C10 (amended): the relative-duration predicate embeds
`int64(d.Seconds())` — the `float64` seconds value of the duration truncated
toward zero. On whole-second durations this is exactly the seconds count,
and any sub-second duration degenerates to a zero-second interval
(sub-second precision of the window is lost); unlike exact whole-second
truncation, the `float64` rounding can land one second higher at
nanosecond-extreme durations (see the counterexample). -/
theorem search_lastDuration_seconds_literal (s : SearchQuery) (d : Int)
    (h : s.lastDuration = some d) :
    ([QTok.str ("event_time >= CURRENT_TIMESTAMP - '" ++
        toString (goDurationSeconds d) ++ " seconds'::interval")]
      ∈ (rawWhereArgs s).whereClauses) ∧
    ([QTok.str ("event_time >= CURRENT_TIMESTAMP - '" ++
        toString (goDurationSeconds d) ++ " seconds'::interval")]
      ∈ (reqInfoWhereArgs s).whereClauses) ∧
    (∀ k : Int, 0 ≤ k → k ≤ 9223372036 → d = k * 1000000000 →
      goDurationSeconds d = k) ∧
    (0 ≤ d → d < 1000000000 → goDurationSeconds d = 0) := by
  refine ⟨?_, ?_, ?_, ?_⟩
  · rcases hts : s.timeStart with _ | t <;> rcases hte : s.timeEnd with _ | u <;>
      simp [rawWhereArgs, addFilterClauses, rawTimeWhere, hts, hte, h]
  · rcases hts : s.timeStart with _ | t <;> rcases hte : s.timeEnd with _ | u <;>
      simp [reqInfoWhereArgs, addFilterClauses, reqInfoTimeWhere, hts, hte, h]
  · intro k hk0 hk1 hd
    rw [hd]
    exact goDurationSeconds_whole k hk0 hk1
  · exact goDurationSeconds_subsecond d

/-- Witness for C10: a half-second window produces the degenerate zero-second
interval clause. -/
theorem search_lastDuration_seconds_literal_witness :
    ([QTok.str "event_time >= CURRENT_TIMESTAMP - '0 seconds'::interval"]
      ∈ (rawWhereArgs sqHalfSecond).whereClauses) ∧
    goDurationSeconds 500000000 = 0 := by
  have h := search_lastDuration_seconds_literal sqHalfSecond 500000000 rfl
  have h0 : goDurationSeconds 500000000 = 0 := h.2.2.2 (by norm_num) (by norm_num)
  constructor
  · have hwc : (rawWhereArgs sqHalfSecond).whereClauses =
        [[QTok.str ("event_time >= CURRENT_TIMESTAMP - '" ++
          toString (goDurationSeconds 500000000) ++ " seconds'::interval")]] := rfl
    rw [hwc, h0]
    decide
  · exact h0

end LogSearch
